import Mathlib

/-!
Verification development for the VIPrestore service-synchronization core.

The definitions below are a shallow embedding of the Python sources:
`vipclient.py` (Transport) and `service_manager.py` (SyncOrchestrator) and
`services_filter.py` (FilterEngine).  Python dicts are embedded as ordered
association lists (`Dict α`) with first-match lookup and in-place replacing
insert, which matches the semantics of Python `dict` for unique keys (every
dict built by the Python runtime has unique keys; lookup returns the single
binding, `dict.update` replaces in place keeping the original position).
Fallible code is embedded with `Except`; JSON `obj.get(k, default)` chains
become `Option` fields with `getD`.
-/

set_option autoImplicit false

namespace VIPrestore

/-- Association-list embedding of a Python `dict` with `String` keys. -/
abbrev Dict (α : Type) := List (String × α)

/-- Embedding of Python `d.get(key)`: first binding for `key`, if any. -/
def dget {α : Type} : Dict α → String → Option α
  | [], _ => none
  | (k, v) :: rest, key => if key = k then some v else dget rest key

/-- Embedding of Python `d[key] = v`: replace the binding in place if the key
is present (keeping its position, like CPython dicts), else append. -/
def dinsert {α : Type} : Dict α → String → α → Dict α
  | [], key, v => [(key, v)]
  | (k, w) :: rest, key, v =>
      if k = key then (key, v) :: rest else (k, w) :: dinsert rest key v

/-- Embedding of Python `d.update(other)`: fold `dinsert` over `other`. -/
def dupdate {α : Type} (d other : Dict α) : Dict α :=
  other.foldl (fun acc p => dinsert acc p.1 p.2) d

/-- Keys of a dict, in order. -/
def dkeys {α : Type} (d : Dict α) : List String := d.map Prod.fst

/-- Value of the LAST binding of a key in an association list (the binding a
fold of inserts would leave in force). -/
def dgetLast {α : Type} (d : Dict α) (key : String) : Option α :=
  d.foldl (fun acc p => if p.1 = key then some p.2 else acc) none

/-! ## Data model

Embedding of the JSON service records handled by `service_manager.py` and
`vipclient.py`.  A missing JSON key is `none`; `obj.get(k, default)` is
`Option.getD`.  Fields not read by any code under verification are omitted.
-/

/-- One entry of `booking["auditHistory"]`. -/
structure AuditEntry where
  msg : String := ""
  user : String := ""
  rev : String := ""
  ts : String := ""
  deriving DecidableEq, Repr

/-- Embedding of `booking["descriptor"]` (`label` / `desc`). -/
structure Descriptor where
  label : String := ""
  desc : String := ""
  deriving DecidableEq, Repr

/-- Embedding of the `booking` sub-dict of a service record.  `fromUid` and
`toUid` embed the JSON keys `from` and `to`. -/
structure Booking where
  serviceId : String := ""
  fromUid : String := ""
  toUid : String := ""
  allocationState : Option Int := none
  createdBy : String := ""
  lockedBy : String := ""
  isRecurrentInstance : Bool := false
  timestamp : String := ""
  descriptor : Descriptor := {}
  profile : String := ""
  auditHistory : List AuditEntry := []
  rev : Option String := none
  deriving DecidableEq, Repr

/-- Embedding of the `res` sub-dict built by `retrieve_group_connections`. -/
structure ResInfo where
  breakAway : Option Bool := none
  complete : Option Bool := none
  numChildren : Int := 0
  children : Dict Unit := []
  rev : String := ""
  state : Option Int := none
  deriving DecidableEq, Repr

/-- Embedding of one service record of the canonical map.  `type` is the JSON
`type` key (`"group"` for group services, anything else is endpoint-kind);
`groupParent` is the key stamped by `fetch_services_data`. -/
structure Service where
  type : String := ""
  booking : Option Booking := none
  res : Option ResInfo := none
  groupParent : Option String := none
  deriving DecidableEq, Repr

/-- Embedding of one profile entry of `data.config.profiles` (`info.get("name", pid)`
falls back to the id when `name` is missing). -/
structure ProfileInfo where
  name : Option String := none
  deriving DecidableEq, Repr

/-- Embedding of the `get_profiles` response, reduced to the
`data.config.profiles` sub-object that `fetch_services_data` reads
(`profiles_resp.get("data", {}).get("config", {}).get("profiles", {})`). -/
structure ProfilesResp where
  profiles : Dict ProfileInfo := []
  deriving DecidableEq, Repr

/-! Raw JSON shapes consumed by `retrieve_group_connections` /
`fetch_single_group_connection` (`data.status.conman.services.*`). -/

/-- Embedding of `connection["generic"]`. -/
structure RawGeneric where
  locked : Bool := false
  state : Option Int := none
  descriptor : Option Descriptor := none
  deriving DecidableEq, Repr

/-- Embedding of `connection["specific"]`.  Only the keys of `children` are
read (the child ids). -/
structure RawSpecific where
  breakAway : Option Bool := none
  complete : Option Bool := none
  numChildren : Int := 0
  children : Dict Unit := []
  deriving DecidableEq, Repr

/-- Embedding of the `connection` object of one raw group service. -/
structure RawConnection where
  id : Option String := none
  fromUid : String := ""
  toUid : String := ""
  rev : String := ""
  generic : RawGeneric := {}
  specific : RawSpecific := {}
  deriving DecidableEq, Repr

/-- Embedding of one value of the raw `conman.services` dict. -/
structure RawGroupService where
  connection : RawConnection := {}
  deriving DecidableEq, Repr

/-! ## Transport fetch primitives (`vipclient.py`)

An HTTP-level fetch either yields its parsed payload or fails.  The error
kind distinguishes `VideoIPathClientError` (raised by `_request` / `get` for
transport failures) from every other exception (e.g. JSON decoding errors or
the `asyncio` timeout raised one layer up), because
`retrieve_group_connections` and `fetch_single_group_connection` swallow only
`VideoIPathClientError`.
-/

/-- Kind of exception escaping an HTTP-level fetch. -/
inductive GetErr : Type where
  /-- Embedding of a raised `VideoIPathClientError`. -/
  | vip (msg : String)
  /-- Embedding of any other raised exception (JSON decode error, timeout from
  `_run_api_call`, ...). -/
  | other (msg : String)
  deriving DecidableEq, Repr

/-- Embedding of the group-service record literal built inside
`retrieve_group_connections` / `fetch_single_group_connection` for one raw
entry: returns `(group_id, service)` with `group_id = connection.get("id", svc_key)`. -/
def buildGroupService (svcKey : String) (raw : RawGroupService) : String × Service :=
  let connection := raw.connection
  let group_id := connection.id.getD svcKey
  let gen := connection.generic
  let spec := connection.specific
  let desc := gen.descriptor.getD {}
  (group_id,
    { type := "group"
      booking := some
        { serviceId := group_id
          fromUid := connection.fromUid
          toUid := connection.toUid
          allocationState := none
          createdBy := ""
          lockedBy := if gen.locked then "GroupLocked" else ""
          isRecurrentInstance := false
          timestamp := ""
          descriptor := { label := desc.label, desc := desc.desc }
          profile := ""
          auditHistory := []
          rev := none }
      res := some
        { breakAway := spec.breakAway
          complete := spec.complete
          numChildren := spec.numChildren
          children := spec.children
          rev := connection.rev
          state := gen.state }
      groupParent := none })

/-- One step of the `retrieve_group_connections` loop body: add the built
group service under its own id and map every child id to the group id. -/
def groupConnStep (acc : Dict Service × Dict String) (p : String × RawGroupService) :
    Dict Service × Dict String :=
  let built := buildGroupService p.1 p.2
  let group_services := dinsert acc.1 built.1 built.2
  let child_to_group :=
    p.2.connection.specific.children.foldl (fun m c => dinsert m c.1 built.1) acc.2
  (group_services, child_to_group)

/-- Embedding of `VideoIPathClient.retrieve_group_connections`.  The whole
body sits in a `try` whose `except VideoIPathClientError` returns
`({}, {})`, so a transport failure is swallowed into empty maps; any other
exception propagates. -/
def retrieve_group_connections (r : Except GetErr (Dict RawGroupService)) :
    Except GetErr (Dict Service × Dict String) :=
  match r with
  | .error (.vip _) => .ok ([], [])
  | .error (.other m) => .error (.other m)
  | .ok raw_services => .ok (raw_services.foldl groupConnStep ([], []))

/-- Scan of the raw services dict done by `fetch_single_group_connection`:
return the first entry whose `connection.get("id", svc_key)` equals the
requested group id, built exactly like in `retrieve_group_connections`. -/
def findGroupService (group_id : String) : Dict RawGroupService → Option Service
  | [] => none
  | p :: rest =>
      let built := buildGroupService p.1 p.2
      if built.1 = group_id then some built.2 else findGroupService group_id rest

/-- Embedding of `VideoIPathClient.fetch_single_group_connection`: a
swallowed `VideoIPathClientError` and an absent id both yield `none`; other
exceptions propagate. -/
def fetch_single_group_connection (group_id : String)
    (r : Except GetErr (Dict RawGroupService)) : Except GetErr (Option Service) :=
  match r with
  | .error (.vip _) => .ok none
  | .error (.other m) => .error (.other m)
  | .ok raw_services => .ok (findGroupService group_id raw_services)

/-- Embedding of one value of `data.config.network.nGraphElements`, reduced
to the `value.descriptor.label` chain that `get_endpoint_map` reads (missing
keys give `""`). -/
structure NGraphElement where
  label : String := ""
  deriving DecidableEq, Repr

/-- Embedding of one value of `data.status.network.externalEndpoints`,
reduced to the `descriptor.label` chain (`.get("label") or ""`). -/
structure ExternalEndpoint where
  label : String := ""
  deriving DecidableEq, Repr

/-- Embedding of `VideoIPathClient.get_endpoint_map`.  Each of the two
sub-fetches is wrapped in `try ... except Exception: pass`, so every failure
is swallowed and the map built so far is kept. -/
def get_endpoint_map (localRes : Except GetErr (Dict NGraphElement))
    (externalRes : Except GetErr (Dict ExternalEndpoint)) : Dict String :=
  let m1 : Dict String :=
    match localRes with
    | .ok ngraph =>
        ngraph.foldl (fun m p =>
          dinsert m p.1 (if p.2.label = "" then p.1 else p.2.label)) []
    | .error _ => []
  match externalRes with
  | .ok ext =>
      ext.foldl (fun m p =>
        dinsert m p.1 (if p.2.label = "" then p.1 else p.2.label)) m1
  | .error _ => m1

/-! ## Transport request state machine (`VideoIPathClient._request`)

The embedding makes the observable effects of `_request` explicit: which
network attempts were performed and with which value of `session.verify`,
for which hosts the SSL-exception callback was invoked, the outcome, and the
session state (`session.verify`, `ssl_exceptions`) after the call.  The
surrounding `requests` behaviour is modelled by a `world` function giving
the outcome of `session.request` for a given host and verification flag.
-/

/-- Outcome of one underlying `session.request` + `raise_for_status` call. -/
inductive NetOutcome : Type where
  /-- Request succeeded (2xx). -/
  | success
  /-- Raised `requests.exceptions.SSLError` (certificate validation failed). -/
  | sslError
  /-- Raised `ConnectTimeout` / `ConnectionError`. -/
  | connError
  /-- Raised any other `RequestException` (e.g. non-2xx HTTP status). -/
  | httpError
  deriving DecidableEq, Repr

/-- Session state of the transport relevant to SSL-exception handling:
`verify` embeds `session.verify`, `ssl_exceptions` the per-domain decision
dict (domains mapped to `True`). -/
structure TransportState where
  verify : Bool
  ssl_exceptions : List String
  deriving DecidableEq, Repr

instance {ε α : Type} [DecidableEq ε] [DecidableEq α] : DecidableEq (Except ε α) :=
  fun x y =>
    match x, y with
    | .ok a, .ok b =>
        if h : a = b then .isTrue (congrArg Except.ok h)
        else .isFalse (fun hc => h (Except.ok.inj hc))
    | .error e, .error f =>
        if h : e = f then .isTrue (congrArg Except.error h)
        else .isFalse (fun hc => h (Except.error.inj hc))
    | .ok _, .error _ => .isFalse (fun hc => Except.noConfusion hc)
    | .error _, .ok _ => .isFalse (fun hc => Except.noConfusion hc)

/-- Observable effects of one `_request` call. -/
structure RequestResult where
  /-- The `session.request` attempts performed, as (domain, verify flag). -/
  attempts : List (String × Bool)
  /-- Domains for which the SSL-exception callback was invoked. -/
  prompts : List String
  /-- Successful return, or the raised `VideoIPathClientError` message. -/
  outcome : Except String Unit
  /-- Session state after the call. -/
  state : TransportState
  deriving DecidableEq, Repr

/-- Embedding of `VideoIPathClient._request` for one URL with domain
`domain`.  `world d v` is the outcome `session.request` would have for
domain `d` with `session.verify = v`; `callback` embeds
`ssl_exception_callback` (`none` when absent).  In `requests`, `SSLError`
is a subclass of `ConnectionError`, so in the non-SSL handlers it maps to
the connection-failure message. -/
def vip_request (world : String → Bool → NetOutcome)
    (callback : Option (String → Bool)) (st : TransportState) (domain : String) :
    RequestResult :=
  if st.ssl_exceptions.contains domain && !st.verify then
    -- Prior decision branch: user previously accepted the risk for this domain.
    match world domain false with
    | .success => ⟨[(domain, false)], [], .ok (), st⟩
    | .connError =>
        ⟨[(domain, false)], [],
          .error ("Connection failed: Could not connect to " ++ domain ++
            ". The server may be unavailable or the network connection is down."), st⟩
    | .sslError =>
        ⟨[(domain, false)], [],
          .error ("Connection failed: Could not connect to " ++ domain ++
            ". The server may be unavailable or the network connection is down."), st⟩
    | .httpError => ⟨[(domain, false)], [], .error "Request failed", st⟩
  else
    match world domain st.verify with
    | .success => ⟨[(domain, st.verify)], [], .ok (), st⟩
    | .connError =>
        ⟨[(domain, st.verify)], [],
          .error ("Connection failed: Could not connect to " ++ domain ++
            ". The server may be unavailable or the network connection is down."), st⟩
    | .httpError => ⟨[(domain, st.verify)], [], .error "Request failed", st⟩
    | .sslError =>
        match callback with
        | none =>
            ⟨[(domain, st.verify)], [],
              .error "SSL certificate verification failed and no exception handler is available",
              st⟩
        | some decide_cb =>
            let message := "SSL certificate verification failed for " ++ domain
            if decide_cb message then
              -- Remember the decision for this domain and set session.verify
              -- to False.  The source saves `old_verify` but never restores
              -- it, so `verify` stays False in the resulting state.
              let st2 : TransportState :=
                ⟨false,
                  if st.ssl_exceptions.contains domain then st.ssl_exceptions
                  else st.ssl_exceptions ++ [domain]⟩
              match world domain false with
              | .success =>
                  ⟨[(domain, st.verify), (domain, false)], [domain], .ok (), st2⟩
              | .connError =>
                  ⟨[(domain, st.verify), (domain, false)], [domain],
                    .error ("Connection failed: Could not connect to " ++ domain ++
                      ". The server may be unavailable or the network connection is down."),
                    st2⟩
              | .sslError =>
                  ⟨[(domain, st.verify), (domain, false)], [domain],
                    .error ("Connection failed: Could not connect to " ++ domain ++
                      ". The server may be unavailable or the network connection is down."),
                    st2⟩
              | .httpError =>
                  ⟨[(domain, st.verify), (domain, false)], [domain],
                    .error "Request failed after SSL exception", st2⟩
            else
              ⟨[(domain, st.verify)], [domain],
                .error ("SSL certificate verification failed for " ++ domain ++
                  ". Connection aborted per user request."), st⟩

/-! ## SyncOrchestrator (`service_manager.py`) -/

/-- The four maps held by `ServiceManager` between syncs. -/
structure ManagerState where
  current_services : Dict Service := []
  profile_mapping : Dict String := []
  endpoint_map : Dict String := []
  child_to_group : Dict String := []
  deriving DecidableEq, Repr

/-- Return value of a successful `fetch_services_data`. -/
structure SyncResult where
  merged : Dict Service
  used_profile_ids : List String
  profile_mapping : Dict String
  endpoint_map : Dict String
  child_to_group : Dict String
  deriving DecidableEq, Repr

/-- Profile id of a service record as read by `fetch_services_data`:
`svc_data.get("booking", {}).get("profile", "")`. -/
def profileOf (svc : Service) : String :=
  match svc.booking with
  | none => ""
  | some b => b.profile

/-- Effect on one merged entry of the group-parent stamping loop.  The Python
loop mutates the `normal_services` record objects in place; the mutation is
visible in `merged` exactly for keys taken from `normal_services` and not
overwritten by a `group_services` entry. -/
def stampGroupParent (normal group_services : Dict Service) (child_to_group : Dict String)
    (key : String) (svc : Service) : Service :=
  if (dget normal key).isSome && (dget group_services key).isNone
      && (dget child_to_group key).isSome then
    { svc with groupParent := dget child_to_group key }
  else svc

/-- Accumulation step of the `used_profile_ids` set: add a non-empty profile
id not yet present (Python set insertion, in first-insertion order). -/
def usedProfileStep (acc : List String) (p : String × Service) : List String :=
  let pid := profileOf p.2
  if pid ≠ "" && !acc.contains pid then acc ++ [pid] else acc

/-- The merged canonical map computed by `fetch_services_data` (lines
104-111): `merged = {}`, `merged.update(normal_services)`,
`merged.update(group_services)`, then the group-parent stamping loop applied
to the entries it reaches. -/
def mergedOf (normal_services group_services : Dict Service)
    (child_to_group : Dict String) : Dict Service :=
  (dupdate (dupdate [] normal_services) group_services).map fun p =>
    (p.1, stampGroupParent normal_services group_services child_to_group p.1 p.2)

/-- The `used_profile_ids` set derived from the merged map (lines 114-119). -/
def usedProfileIdsOf (merged : Dict Service) : List String :=
  merged.foldl usedProfileStep []

/-- The profile name map built from the profiles response (lines 122-123). -/
def profileMappingOf (profiles_resp : ProfilesResp) : Dict String :=
  profiles_resp.profiles.map fun q => (q.1, q.2.name.getD q.1)

/-- Embedding of `ServiceManager.fetch_services_data`.  The four arguments
`r_normal`, `r_profiles`, `r_endpoint`, `r_group` are the settled results of
the four concurrent `_run_api_call` tasks (`asyncio.gather` fails fast: any
exceptional task raises, and the `except` re-raises `ServiceManagerError`
before any of the held maps is assigned).  Returns the state after the call
together with the result or the raised error. -/
def fetch_services_data (st : ManagerState) (hasClient : Bool)
    (r_normal : Except GetErr (Dict Service))
    (r_profiles : Except GetErr ProfilesResp)
    (r_endpoint : Except GetErr (Dict String))
    (r_group : Except GetErr (Dict Service × Dict String)) :
    ManagerState × Except String SyncResult :=
  if hasClient = false then (st, .error "Client not set")
  else
    match r_normal, r_profiles, r_endpoint, r_group with
    | .ok normal_services, .ok profiles_resp, .ok endpoint_map,
        .ok (group_services, child_to_group) =>
        let merged := mergedOf normal_services group_services child_to_group
        let res : SyncResult :=
          ⟨merged, usedProfileIdsOf merged, profileMappingOf profiles_resp,
            endpoint_map, child_to_group⟩
        ({ current_services := merged
           profile_mapping := profileMappingOf profiles_resp
           endpoint_map := endpoint_map
           child_to_group := child_to_group }, .ok res)
    | _, _, _, _ => (st, .error "Failed to fetch services data")

/-- Observable effects of one `ServiceManager.fetch_group_connection` call. -/
structure GroupFetchRun where
  /-- Number of network calls issued (0 or 1). -/
  networkCalls : Nat
  /-- The returned value (`None` embeds as `none`). -/
  result : Option Service
  /-- `current_services` after the call. -/
  current_services : Dict Service
  deriving DecidableEq, Repr

/-- Embedding of `ServiceManager.fetch_group_connection`.  `net` is the
settled result of the `fetch_single_group_connection` task (possibly a
propagated exception, e.g. a timeout); the `except` branch logs and returns
`None` leaving the map untouched. -/
def fetch_group_connection (hasClient : Bool) (current : Dict Service)
    (group_id : String) (net : Except GetErr (Option Service)) : GroupFetchRun :=
  if hasClient = false then ⟨0, none, current⟩
  else
    match dget current group_id with
    | some svc => ⟨0, some svc, current⟩
    | none =>
        match net with
        | .ok (some svc) => ⟨1, some svc, dinsert current group_id svc⟩
        | .ok none => ⟨1, none, current⟩
        | .error _ => ⟨1, none, current⟩

/-- Embedding of the entry-building loop of `ServiceManager.cancel_services`
(lines 423-437): the first missing service, missing booking or missing
revision raises `ServiceManagerError`; otherwise the `(id, rev)` pairs are
collected in order. -/
def cancel_build_entries (current : Dict Service) :
    List String → Except String (List (String × String))
  | [] => .ok []
  | service_id :: rest =>
      match dget current service_id with
      | none => .error ("Service " ++ service_id ++ " not found")
      | some service_data =>
          match service_data.booking with
          | none => .error ("Could not find booking data for service " ++ service_id)
          | some booking_data =>
              match booking_data.rev with
              | none => .error ("Could not retrieve revision for service " ++ service_id)
              | some revision =>
                  (cancel_build_entries current rest).map
                    (fun es => (service_id, revision) :: es)

/-- Whether an `Except` value is a success. -/
def exceptOk {ε α : Type} : Except ε α → Bool
  | .ok _ => true
  | .error _ => false

/-- The revision the `cancel_services` validation loop would extract for one
id: `current_services.get(id)`, then `.get("booking")`, then `.get("rev")`;
`none` as soon as one step is missing. -/
def revLookup (current : Dict Service) (service_id : String) : Option String :=
  match dget current service_id with
  | none => none
  | some service_data =>
      match service_data.booking with
      | none => none
      | some booking_data => booking_data.rev

/-- Embedding of one `entriesLink` element of a create/cancel response. -/
structure EntryLink where
  id : Option String := none
  error : Option String := none
  deriving DecidableEq, Repr

/-- Python truthiness of `link.get("id")`: present and non-empty. -/
def linkIdTruthy : Option String → Bool
  | none => false
  | some s => !(s = "")

/-- Embedding of one `bookresult.details` value (its `status` key). -/
structure BookDetail where
  status : Option Int := none
  deriving DecidableEq, Repr

/-- Status of the detail entry for an id in `create_services`:
`details.get(entry_id, {}).get("status", 0)`. -/
def detailStatus (details : Dict BookDetail) (entry_id : String) : Int :=
  (((dget details entry_id).getD {}).status).getD 0

/-- Return value of `create_services` / `cancel_services`. -/
structure BatchResult where
  total : Nat
  success_count : Nat
  failed_services : List (String × String)
  deriving DecidableEq, Repr

/-- One step of the `entriesLink` result loop of `create_services`
(lines 389-399): count a success, or append an `(id, reason)` pair. -/
def create_entry_step (details : Dict BookDetail)
    (acc : Nat × List (String × String)) (link : EntryLink) :
    Nat × List (String × String) :=
  if link.error = none ∧ linkIdTruthy link.id then
    match link.id with
    | some entry_id =>
        if detailStatus details entry_id = 0 then (acc.1 + 1, acc.2)
        else (acc.1,
          acc.2 ++ [(entry_id, "Status " ++ toString (detailStatus details entry_id))])
    | none => acc
  else
    (acc.1,
      acc.2 ++
        [((match link.id with
            | some entry_id => if entry_id = "" then "Unknown" else entry_id
            | none => "Unknown"),
          link.error.getD "Unknown error")])

/-- The success/failure accumulation of the whole `entriesLink` loop of
`create_services`. -/
def create_counts (details : Dict BookDetail) (links : List EntryLink) :
    Nat × List (String × String) :=
  links.foldl (create_entry_step details) (0, [])

/-- Embedding of the `setModernServices` response body read by
`create_services`. -/
structure CreateResponse where
  entriesLink : List EntryLink := []
  details : Dict BookDetail := []
  deriving DecidableEq, Repr

/-- Embedding of `ServiceManager.create_services`.  `selected_ids` is the
iteration order of the selected-id set; `entries` keeps only ids present in
`services` (line 353).  `resp` is the settled network call: an exception is
wrapped into `ServiceManagerError`; otherwise the per-entry outcomes are
folded into a `BatchResult` (partial failure does not raise). -/
def create_services (hasClient : Bool) (services : Dict Service)
    (selected_ids : List String) (resp : Except String CreateResponse) :
    Except String BatchResult :=
  if hasClient = false then .error "Client not set"
  else
    let entries := selected_ids.filterMap fun sid => dget services sid
    match resp with
    | .error e => .error ("Failed to create services: " ++ e)
    | .ok r =>
        let counted := create_counts r.details r.entriesLink
        .ok ⟨entries.length, counted.1, counted.2⟩

/-- Embedding of the `cancelModernServices` response body read by
`cancel_services` (`header.ok`, `header.msg`, and the booking results). -/
structure CancelResponse where
  header_ok : Bool := false
  header_msg : String := ""
  entriesLink : List EntryLink := []
  details : Dict BookDetail := []
  deriving DecidableEq, Repr

/-- Status test of the `cancel_services` loop: `detail.get("status") == 0`
(no default, so a missing status is a failure), with the Python rendering of
`f"Status ..."` for the failure reason. -/
def cancelDetailStatusMsg (details : Dict BookDetail) (entry_id : String) : String :=
  match ((dget details entry_id).getD {}).status with
  | none => "Status None"
  | some n => "Status " ++ toString n

/-- One step of the `entries_link` result loop of `cancel_services`
(lines 475-485). -/
def cancel_entry_step (details : Dict BookDetail)
    (acc : Nat × List (String × String)) (link : EntryLink) :
    Nat × List (String × String) :=
  if link.error = none ∧ linkIdTruthy link.id then
    match link.id with
    | some service_id =>
        if ((dget details service_id).getD {}).status = some 0 then (acc.1 + 1, acc.2)
        else (acc.1, acc.2 ++ [(service_id, cancelDetailStatusMsg details service_id)])
    | none => acc
  else
    (acc.1,
      acc.2 ++
        [((match link.id with
            | some service_id => if service_id = "" then "Unknown" else service_id
            | none => "Unknown"),
          link.error.getD "Unknown error")])

/-- Observable effects of one `ServiceManager.cancel_services` call. -/
structure CancelRun where
  /-- Number of network calls issued (0 or 1). -/
  networkCalls : Nat
  /-- The batched `entries` payload sent, if a request was issued. -/
  payload : Option (List (String × String))
  /-- Returned result or raised `ServiceManagerError` message. -/
  result : Except String BatchResult
  deriving DecidableEq, Repr

/-- Embedding of `ServiceManager.cancel_services`.  The entry-building loop
runs before the network request: any missing service / booking / revision
raises with zero network calls.  Only when every id validates is the single
batched request issued (`resp` is its settled result). -/
def cancel_services (hasClient : Bool) (current : Dict Service)
    (service_ids : List String) (resp : Except String CancelResponse) : CancelRun :=
  if hasClient = false then ⟨0, none, .error "Client not set"⟩
  else
    match cancel_build_entries current service_ids with
    | .error m => ⟨0, none, .error m⟩
    | .ok entries =>
        match resp with
        | .error e => ⟨1, some entries, .error ("Failed to cancel services: " ++ e)⟩
        | .ok r =>
            if r.header_ok = false then
              ⟨1, some entries, .error ("API call failed: " ++ r.header_msg)⟩
            else
              let counted := r.entriesLink.foldl (cancel_entry_step r.details) (0, [])
              ⟨1, some entries, .ok ⟨entries.length, counted.1, counted.2⟩⟩

/-! ## FilterEngine (`services_filter.py`)

`evaluate_filter` uses Python `re` with the patterns `r"\bOR\b"` and
`r"\bAND\b"`.  The embedding implements word-boundary search and split for a
fixed all-word-character token over `List Char`.  Python `\w` is modelled by
its ASCII core (letters, digits, underscore), which is exact for all inputs
consisting of ASCII text.
-/

/-- ASCII core of Python regex `\w`. -/
def isWordChar (c : Char) : Bool := c.isAlphanum || c = '_'

/-- Word boundary on the left of a token occurrence: start of string or a
non-word character before it (the token starts with a word character). -/
def boundaryBefore : Option Char → Bool
  | none => true
  | some p => !isWordChar p

/-- Word boundary on the right of a token occurrence: end of string or a
non-word character after it (the token ends with a word character). -/
def boundaryAfter : List Char → Bool
  | [] => true
  | c :: _ => !isWordChar c

/-- Python whitespace stripped by `str.strip()` (ASCII core). -/
def isPySpace (c : Char) : Bool :=
  c = ' ' || c = '\t' || c = '\n' || c = '\r' || c = '\x0b' || c = '\x0c'

/-- Embedding of Python `str.strip()`. -/
def pyStrip (s : List Char) : List Char :=
  ((s.dropWhile isPySpace).reverse.dropWhile isPySpace).reverse

/-- Embedding of Python `str.lower()` (ASCII core). -/
def pyLower (s : List Char) : List Char := s.map Char.toLower

/-- Embedding of Python `needle in haystack` (substring test). -/
def isSubstr (needle : List Char) : List Char → Bool
  | [] => needle.isEmpty
  | c :: rest => needle.isPrefixOf (c :: rest) || isSubstr needle rest

/-- Scan of `re.search(r"\bOR\b", s)`: `prev` is the character before the
scan position.  A match needs the literal `OR` with word boundaries on both
sides. -/
def searchORAux : Option Char → List Char → Bool
  | _, [] => false
  | prev, 'O' :: 'R' :: rest =>
      (boundaryBefore prev && boundaryAfter rest) || searchORAux (some 'O') ('R' :: rest)
  | _prev, c :: rest => searchORAux (some c) rest

/-- Embedding of `re.search(r"\bOR\b", s) is not None`. -/
def searchOR (s : List Char) : Bool := searchORAux none s

/-- Scan of `re.search(r"\bAND\b", s)`. -/
def searchANDAux : Option Char → List Char → Bool
  | _, [] => false
  | prev, 'A' :: 'N' :: 'D' :: rest =>
      (boundaryBefore prev && boundaryAfter rest)
        || searchANDAux (some 'A') ('N' :: 'D' :: rest)
  | _prev, c :: rest => searchANDAux (some c) rest

/-- Embedding of `re.search(r"\bAND\b", s) is not None`. -/
def searchAND (s : List Char) : Bool := searchANDAux none s

/-- Scan of `re.split(r"\bOR\b", s)`: split at each leftmost non-overlapping
word-bounded `OR`; `acc` holds the current token reversed. -/
def splitORAux : Option Char → List Char → List Char → List (List Char)
  | _, [], acc => [acc.reverse]
  | prev, 'O' :: 'R' :: rest, acc =>
      if boundaryBefore prev && boundaryAfter rest then
        acc.reverse :: splitORAux (some 'R') rest []
      else splitORAux (some 'O') ('R' :: rest) ('O' :: acc)
  | _prev, c :: rest, acc => splitORAux (some c) rest (c :: acc)

/-- Embedding of `re.split(r"\bOR\b", s)`. -/
def splitOR (s : List Char) : List (List Char) := splitORAux none s []

/-- Scan of `re.split(r"\bAND\b", s)`. -/
def splitANDAux : Option Char → List Char → List Char → List (List Char)
  | _, [], acc => [acc.reverse]
  | prev, 'A' :: 'N' :: 'D' :: rest, acc =>
      if boundaryBefore prev && boundaryAfter rest then
        acc.reverse :: splitANDAux (some 'D') rest []
      else splitANDAux (some 'A') ('N' :: 'D' :: rest) ('A' :: acc)
  | _prev, c :: rest, acc => splitANDAux (some c) rest (c :: acc)

/-- Embedding of `re.split(r"\bAND\b", s)`. -/
def splitAND (s : List Char) : List (List Char) := splitANDAux none s []

/-- Substring test applied to one split token, as in the two generator
expressions: `token.strip().lower() in text`. -/
def tokenMatches (text : List Char) (token : List Char) : Bool :=
  isSubstr (pyLower (pyStrip token)) text

/-- Embedding of `ServicesFilterProxy.evaluate_filter`.  `text` is the field
text as passed by the caller (already lower-cased by `filterAcceptsRow`);
split tokens whose strip is empty are dropped by the `if token.strip()`
filter of the generator expressions, and `any` / `all` of the remaining
tokens decide the match. -/
def evaluate_filter (text : List Char) (filter_str0 : List Char) : Bool :=
  let filter_str := pyStrip filter_str0
  if filter_str.isEmpty then true
  else if searchOR filter_str then
    ((splitOR filter_str).filter fun t => !(pyStrip t).isEmpty).any (tokenMatches text)
  else if searchAND filter_str then
    ((splitAND filter_str).filter fun t => !(pyStrip t).isEmpty).all (tokenMatches text)
  else
    isSubstr (pyLower filter_str) text

/-- Field-level acceptance as `filterAcceptsRow` computes it for the source
and destination columns: the field text is lower-cased
(`(model.data(idx) or "").lower()`) before `evaluate_filter` is applied. -/
def field_accepts (field_text : String) (filter_str : String) : Bool :=
  evaluate_filter (pyLower field_text.data) filter_str.data

/-- One table cell as the sort comparator sees it: the displayed text
(`DisplayRole`) and the raw start timestamp stored under `UserRole`
(absent when the service has no parsable start). -/
structure RowCell where
  display : String
  raw : Option Int
  deriving DecidableEq, Repr

/-- Lexicographic order on character sequences by code point. -/
def charListLt : List Char → List Char → Bool
  | [], [] => false
  | [], _ :: _ => true
  | _ :: _, [] => false
  | a :: as, b :: bs =>
      decide (a.toNat < b.toNat) || (a == b && charListLt as bs)

/-- Modelled from the spec: the inherited
`QSortFilterProxyModel.lessThan` (the `super().lessThan` fallback, which
lives in Qt, outside this repository) compares the displayed text
lexically. -/
def baseLessThan (l r : RowCell) : Bool := charListLt l.display.data r.display.data

/-- Embedding of `ServicesFilterProxy.lessThan`: for the Start column
(index 5) compare the raw `UserRole` timestamps when both are present,
otherwise fall back to the inherited comparator. -/
def lessThan (column : Nat) (l r : RowCell) : Bool :=
  if column = 5 then
    match l.raw, r.raw with
    | some a, some b => decide (a < b)
    | _, _ => baseLessThan l r
  else baseLessThan l r

/-! ## Concrete instances used by witnesses and counterexamples -/

/-- An endpoint-kind service with a profile id and a booking revision. -/
def sampleService (pid rv : String) : Service :=
  { type := ""
    booking := some { profile := pid, rev := some rv }
    res := none
    groupParent := none }

/-- A group-kind service record. -/
def sampleGroupService : Service :=
  { type := "group"
    booking := some { profile := "" }
    res := none
    groupParent := none }

/-- A manager state holding non-empty maps from an earlier successful sync. -/
def c1_state0 : ManagerState :=
  { current_services := [("old1", sampleService "p1" "r1")]
    profile_mapping := [("p1", "Main")]
    endpoint_map := [("e1", "Camera 1")]
    child_to_group := [("old1", "g9")] }

def c1_normal : Dict Service := [("new1", sampleService "p2" "r2")]

def c1_profiles : ProfilesResp := { profiles := [("p2", { name := some "Backup" })] }

def c1_endpoint : Dict String := [("e2", "Camera 2")]

/-- A sync in which the group-connections fetch suffers a transport failure
(`VideoIPathClientError`) while the other three fetches succeed. -/
def c1_run : ManagerState × Except String SyncResult :=
  fetch_services_data c1_state0 true (.ok c1_normal) (.ok c1_profiles) (.ok c1_endpoint)
    (retrieve_group_connections (.error (.vip "connection refused")))

def c2w_normal : Dict Service := [("n1", sampleService "p1" "r1")]

def c2w_groups : Dict Service := [("g1", sampleGroupService)]

def c2w_c2g : Dict String := [("n1", "g1")]

def c2w_profiles : ProfilesResp := { profiles := [] }

/-- A world where every host presents an untrusted certificate: verification
on yields an SSL error, verification off succeeds. -/
def c3_world (_domain : String) (verify : Bool) : NetOutcome :=
  if verify then .sslError else .success

def c3_cb : Option (String → Bool) := some fun _ => true

def c3_st0 : TransportState := ⟨true, []⟩

def c3_run1 : RequestResult := vip_request c3_world c3_cb c3_st0 "hosta.example"

def c3_run2 : RequestResult := vip_request c3_world c3_cb c3_run1.state "hostb.example"

def c3_run1_again : RequestResult := vip_request c3_world c3_cb c3_run1.state "hosta.example"

def c3_decline_run : RequestResult :=
  vip_request c3_world (some fun _ => false) c3_st0 "hosta.example"

def c5_current : Dict Service := [("s1", sampleService "p1" "r7")]

def c6_services : Dict Service :=
  [("id1", sampleService "p1" "r1"), ("id2", sampleService "p1" "r2"),
   ("id3", sampleService "p1" "r3")]

/-- A create response reporting success for entries 1 and 3 and a non-zero
detail status for entry 2. -/
def c6_resp : CreateResponse :=
  { entriesLink := [{ id := some "id1" }, { id := some "id2" }, { id := some "id3" }]
    details := [("id2", { status := some 1 })] }

def c8_left : RowCell := { display := "02-01-1970", raw := some 100 }

def c8_right : RowCell := { display := "01-01-1970", raw := some 200 }

def c9_current : Dict Service := [("g1", sampleGroupService)]

/-! ## Association-list lemmas -/

theorem dget_dinsert {α : Type} (d : Dict α) (key : String) (v : α) (k2 : String) :
    dget (dinsert d key v) k2 = if k2 = key then some v else dget d k2 := by
  induction d with
  | nil => simp [dinsert, dget]
  | cons p rest ih =>
      obtain ⟨k, w⟩ := p
      by_cases hk : k = key
      · subst hk
        simp only [dinsert, if_pos rfl]
        by_cases h2 : k2 = k <;> simp [dget, h2]
      · simp only [dinsert, if_neg hk]
        by_cases h2 : k2 = k
        · simp [dget, h2, hk]
        · simp [dget, h2, ih]

theorem dgetLast_foldl_init {α : Type} (key : String) (o : List (String × α))
    (i : Option α) :
    o.foldl (fun acc p => if p.1 = key then some p.2 else acc) i =
      match o.foldl (fun acc p => if p.1 = key then some p.2 else acc) none with
      | some v => some v
      | none => i := by
  induction o generalizing i with
  | nil => simp
  | cons p rest ih =>
      simp only [List.foldl_cons]
      by_cases hp : p.1 = key
      · rw [if_pos hp, if_pos hp, ih (some p.2)]
        cases rest.foldl (fun acc q => if q.1 = key then some q.2 else acc) none <;> simp
      · rw [if_neg hp, if_neg hp]
        exact ih i

theorem dget_dupdate {α : Type} (d o : Dict α) (key : String) :
    dget (dupdate d o) key =
      match dgetLast o key with
      | some v => some v
      | none => dget d key := by
  induction o generalizing d with
  | nil => simp [dupdate, dgetLast]
  | cons p rest ih =>
      simp only [dupdate, List.foldl_cons] at *
      rw [ih (dinsert d p.1 p.2)]
      simp only [dgetLast, List.foldl_cons]
      rw [dgetLast_foldl_init key rest (if p.1 = key then some p.2 else none)]
      cases rest.foldl (fun acc q => if q.1 = key then some q.2 else acc) none with
      | some v => simp
      | none =>
          by_cases hp : p.1 = key
          · simp [dget_dinsert, hp]
          · have hne : ¬ key = p.1 := fun h => hp h.symm
            simp [dget_dinsert, hp, hne]

theorem dget_none_iff_not_mem {α : Type} (d : Dict α) (key : String) :
    dget d key = none ↔ key ∉ dkeys d := by
  induction d with
  | nil => simp [dget, dkeys]
  | cons p rest ih =>
      simp only [dget, dkeys, List.map_cons, List.mem_cons]
      by_cases hp : key = p.1 <;> simp [hp, ih, dkeys]

theorem dgetLast_eq_dget_of_nodup {α : Type} (d : Dict α) (key : String)
    (h : (dkeys d).Nodup) : dgetLast d key = dget d key := by
  induction d with
  | nil => rfl
  | cons p rest ih =>
      simp only [dkeys, List.map_cons, List.nodup_cons] at h
      obtain ⟨hnot, hrest⟩ := h
      have hih : rest.foldl (fun acc q => if q.1 = key then some q.2 else acc) none
          = dget rest key := ih (by simpa [dkeys] using hrest)
      simp only [dgetLast, List.foldl_cons]
      rw [dgetLast_foldl_init key rest (if p.1 = key then some p.2 else none), hih]
      by_cases hp : p.1 = key
      · have hrk : dget rest key = none := by
          rw [dget_none_iff_not_mem]
          rw [← hp]
          simpa [dkeys] using hnot
        rw [hrk, if_pos hp]
        simp [dget, hp.symm]
      · rw [if_neg hp]
        have hne : ¬ key = p.1 := fun h => hp h.symm
        cases hdr : dget rest key <;> simp [dget, hne, hdr]

theorem dget_mem {α : Type} (d : Dict α) (key : String) (v : α)
    (h : dget d key = some v) : (key, v) ∈ d := by
  induction d with
  | nil => simp [dget] at h
  | cons p rest ih =>
      obtain ⟨k, w⟩ := p
      simp only [dget] at h
      by_cases hp : key = k
      · subst hp
        rw [if_pos rfl] at h
        obtain rfl : w = v := Option.some.inj h
        exact List.mem_cons_self _ _
      · rw [if_neg hp] at h
        exact List.mem_cons_of_mem _ (ih h)

theorem dget_map_pair {α β : Type} (f : String → α → β) (l : Dict α) (key : String) :
    dget (l.map fun p => (p.1, f p.1 p.2)) key = (dget l key).map (f key) := by
  induction l with
  | nil => simp [dget]
  | cons p rest ih =>
      simp only [List.map_cons, dget]
      by_cases hp : key = p.1 <;> simp [hp, ih]

/-! ## Claim theorems -/

/-- C10: a filter string consisting solely of the operator word `OR` is
rejected for every field text (the split produces only empty tokens, the
generator filter drops them all, and `any` of nothing is false), whereas a
filter string consisting solely of `AND` is accepted for every field text
(`all` of nothing is true). -/
theorem c10_bare_operator_words (text : String) :
    field_accepts text "OR" = false ∧ field_accepts text "AND" = true :=
  ⟨rfl, rfl⟩

/-- C8: for the Start column (index 5) the sort comparator orders by the raw
numeric timestamp whenever both sides carry one — independently of the
displayed strings — and falls back to the inherited display-text comparison
when the raw timestamp is missing on either side. -/
theorem c8_start_column_sorts_by_raw (l r : RowCell) (a b : Int) :
    (l.raw = some a → r.raw = some b → lessThan 5 l r = decide (a < b))
    ∧ ((l.raw = none ∨ r.raw = none) → lessThan 5 l r = baseLessThan l r) := by
  constructor
  · intro hl hr
    simp [lessThan, hl, hr]
  · intro h
    rcases h with h | h
    · cases hr : r.raw <;> simp [lessThan, h, hr]
    · cases hl : l.raw <;> simp [lessThan, h, hl]

/-- Witness for C8 at the literal case of the spec: raw 100 displayed as
"02-01-1970" versus raw 200 displayed as "01-01-1970" — the comparator
orders by raw value even though the displayed strings order the other
way. -/
theorem c8_start_column_sorts_by_raw_witness :
    lessThan 5 c8_left c8_right = true ∧ baseLessThan c8_left c8_right = false :=
  ⟨((c8_start_column_sorts_by_raw c8_left c8_right 100 200).1 rfl rfl).trans (by decide),
    by decide⟩

/-- C3 (code bug): after the user affirms the SSL exception for one host,
`_request` sets `session.verify = False` and never restores it (the saved
`old_verify` is dead), so a subsequent request to a DIFFERENT host with an
untrusted certificate is silently performed without verification and
without prompting — contradicting both the spec ("only disables
verification for that host") and the code's own comment ("Temporarily
disable verification for this request").  The first conjuncts record the
parts the claim gets right: the first request prompts once and succeeds,
the same host is not re-prompted, and declining raises a terminal error. -/
theorem c3_ssl_exception_leaks_to_other_hosts :
    c3_run1.outcome = .ok () ∧ c3_run1.prompts = ["hosta.example"]
    ∧ c3_run1.state = { verify := false, ssl_exceptions := ["hosta.example"] }
    ∧ c3_run1_again.prompts = [] ∧ c3_run1_again.outcome = .ok ()
    ∧ c3_decline_run.outcome = .error
        ("SSL certificate verification failed for hosta.example. " ++
          "Connection aborted per user request.")
    ∧ c3_run2.attempts = [("hostb.example", false)]
    ∧ c3_run2.prompts = [] ∧ c3_run2.outcome = .ok () := by
  decide

/-- C9 (counterexample): the "not found" outcome and the "transport error"
outcome of `fetch_group_connection` are NOT distinguishable: a single fetch
that reports the id absent and a single fetch that fails exceptionally
produce identical runs (both return `None` with the map untouched), and a
swallowed `VideoIPathClientError` inside `fetch_single_group_connection` is
already collapsed to `None` before the caller can see it. -/
theorem c9_failure_outcomes_indistinguishable :
    fetch_group_connection true [] "g1" (.ok none)
      = fetch_group_connection true [] "g1" (.error (.other "timed out"))
    ∧ (fetch_group_connection true [] "g1" (.ok none)).result = none
    ∧ fetch_single_group_connection "g1" (.error (.vip "connection refused"))
      = .ok none := by
  decide

/-- C9 (amended): `fetch_group_connection` returns the canonical-map entry
without any network call when the id is present; otherwise it issues the
single-group fetch and, on success, inserts the fetched entry into the map
before returning it; on failure — whether the id was absent or the fetch
raised, indistinguishably — it returns `none` with the map unchanged; with
no client set it returns `none` without a network call. -/
theorem c9_resolve_group (current : Dict Service) (group_id : String)
    (net : Except GetErr (Option Service)) :
    (∀ svc, dget current group_id = some svc →
      fetch_group_connection true current group_id net = ⟨0, some svc, current⟩)
    ∧ (∀ svc, dget current group_id = none → net = .ok (some svc) →
        fetch_group_connection true current group_id net
          = ⟨1, some svc, dinsert current group_id svc⟩)
    ∧ (dget current group_id = none → (net = .ok none ∨ exceptOk net = false) →
        fetch_group_connection true current group_id net = ⟨1, none, current⟩)
    ∧ fetch_group_connection false current group_id net = ⟨0, none, current⟩ := by
  refine ⟨?_, ?_, ?_, ?_⟩
  · intro svc h
    simp [fetch_group_connection, h]
  · intro svc h hnet
    simp [fetch_group_connection, h, hnet]
  · intro h hnet
    rcases hnet with hnet | hnet
    · simp [fetch_group_connection, h, hnet]
    · cases net with
      | ok v => cases v <;> simp_all [fetch_group_connection, exceptOk]
      | error e => simp [fetch_group_connection, h]
  · simp [fetch_group_connection]

/-- Witness for C9 (amended): the present-in-map case returns the held entry
with zero network calls; the absent case with a successful single fetch
inserts and returns it; the absent case with a transport error returns
`none` leaving the map unchanged. -/
theorem c9_resolve_group_witness :
    fetch_group_connection true c9_current "g1" (.ok none)
      = ⟨0, some sampleGroupService, c9_current⟩
    ∧ fetch_group_connection true [] "g1" (.ok (some sampleGroupService))
      = ⟨1, some sampleGroupService, dinsert [] "g1" sampleGroupService⟩
    ∧ fetch_group_connection true [] "g1" (.error (.vip "boom"))
      = ⟨1, none, []⟩ :=
  ⟨(c9_resolve_group c9_current "g1" (.ok none)).1 sampleGroupService (by decide),
    (c9_resolve_group [] "g1" (.ok (some sampleGroupService))).2.1 sampleGroupService rfl rfl,
    (c9_resolve_group [] "g1" (.error (.vip "boom"))).2.2.1 rfl (Or.inr rfl)⟩

/-- C1 (counterexample): the claim fails for the group-connections fetch.
With a transport failure (`VideoIPathClientError`) in the group fetch and
the other three fetches succeeding, `retrieve_group_connections` swallows
the error into empty maps, `sync()` SUCCEEDS, and all four held maps are
replaced (here the previously-held canonical map and child-to-group map are
lost) — instead of failing with a `SyncError` and leaving the state
untouched. -/
theorem c1_group_fetch_error_does_not_fail_sync :
    retrieve_group_connections (.error (.vip "connection refused")) = .ok ([], [])
    ∧ exceptOk c1_run.2 = true
    ∧ c1_run.1.current_services ≠ c1_state0.current_services
    ∧ c1_run.1.child_to_group = [] ∧ c1_state0.child_to_group = [("old1", "g9")] := by
  decide

/-- C1 (amended): when any of the four fetch TASKS settles exceptionally,
`fetch_services_data` raises `ServiceManagerError` and none of the four held
maps is modified.  However, not every fetch error reaches the join: the
group-connections fetch swallows transport errors
(`VideoIPathClientError`) into empty maps (while letting other exceptions
propagate), and the endpoint-map fetch swallows every error of its two
sub-fetches into a partial or empty map, so those transport failures yield
a successful sync that replaces the held maps. -/
theorem c1_failed_join_leaves_state_unchanged :
    (∀ (st : ManagerState) (r1 : Except GetErr (Dict Service))
        (r2 : Except GetErr ProfilesResp) (r3 : Except GetErr (Dict String))
        (r4 : Except GetErr (Dict Service × Dict String)),
      (exceptOk r1 = false ∨ exceptOk r2 = false ∨ exceptOk r3 = false
          ∨ exceptOk r4 = false) →
        fetch_services_data st true r1 r2 r3 r4
          = (st, .error "Failed to fetch services data"))
    ∧ (∀ m, retrieve_group_connections (.error (.vip m)) = .ok ([], []))
    ∧ (∀ m, retrieve_group_connections (.error (.other m)) = .error (.other m))
    ∧ (∀ e1 e2, get_endpoint_map (.error e1) (.error e2) = []) := by
  refine ⟨?_, fun m => rfl, fun m => rfl, fun e1 e2 => rfl⟩
  intro st r1 r2 r3 r4 h
  cases r1 <;> cases r2 <;> cases r3 <;> cases r4 <;>
    simp_all [fetch_services_data, exceptOk]

/-- Witness for C1 (amended): a failing normal-services task with the other
three succeeding makes the sync fail with the `ServiceManagerError` and
leaves the previously-held state exactly as it was. -/
theorem c1_failed_join_leaves_state_unchanged_witness :
    fetch_services_data c1_state0 true (.error (.other "timed out"))
        (.ok c1_profiles) (.ok c1_endpoint) (.ok ([], []))
      = (c1_state0, .error "Failed to fetch services data") :=
  c1_failed_join_leaves_state_unchanged.1 c1_state0 _ _ _ _ (Or.inl rfl)

theorem cancel_build_entries_error (current : Dict Service) :
    ∀ (ids : List String), (∃ sid ∈ ids, revLookup current sid = none) →
      ∃ m, cancel_build_entries current ids = .error m := by
  intro ids
  induction ids with
  | nil => rintro ⟨sid, hmem, _⟩; simp at hmem
  | cons sid rest ih =>
      rintro ⟨sid0, hmem, hnone⟩
      cases hsvc : dget current sid with
      | none =>
          exact ⟨"Service " ++ sid ++ " not found",
            by simp [cancel_build_entries, hsvc]⟩
      | some svc =>
          cases hbk : svc.booking with
          | none =>
              exact ⟨"Could not find booking data for service " ++ sid,
                by simp [cancel_build_entries, hsvc, hbk]⟩
          | some booking =>
              cases hrv : booking.rev with
              | none =>
                  exact ⟨"Could not retrieve revision for service " ++ sid,
                    by simp [cancel_build_entries, hsvc, hbk, hrv]⟩
              | some rv =>
                  rcases List.mem_cons.mp hmem with rfl | hmem2
                  · simp only [revLookup, hsvc, hbk] at hnone
                    rw [hnone] at hrv
                    exact Option.noConfusion hrv
                  · obtain ⟨m, hm⟩ := ih ⟨sid0, hmem2, hnone⟩
                    exact ⟨m,
                      by simp [cancel_build_entries, hsvc, hbk, hrv, hm, Except.map]⟩

theorem cancel_build_entries_ok (current : Dict Service) :
    ∀ (ids : List String), (∀ sid ∈ ids, (revLookup current sid).isSome = true) →
      cancel_build_entries current ids
        = .ok (ids.map fun sid => (sid, (revLookup current sid).getD "")) := by
  intro ids
  induction ids with
  | nil => intro _; rfl
  | cons sid rest ih =>
      intro h
      have hhead := h sid (List.mem_cons_self _ _)
      have htail := fun s hs => h s (List.mem_cons_of_mem _ hs)
      cases hsvc : dget current sid with
      | none => simp only [revLookup, hsvc] at hhead; simp at hhead
      | some svc =>
          cases hbk : svc.booking with
          | none => simp only [revLookup, hsvc, hbk] at hhead; simp at hhead
          | some booking =>
              cases hrv : booking.rev with
              | none => simp only [revLookup, hsvc, hbk, hrv] at hhead; simp at hhead
              | some rv =>
                  have hrl : revLookup current sid = some rv := by
                    simp [revLookup, hsvc, hbk, hrv]
                  simp [cancel_build_entries, hsvc, hbk, hrv, ih htail,
                    Except.map, hrl]

/-- C5: the validation loop of `cancel_services` runs before any network
request.  If any requested id is absent from the canonical map, or its
service lacks booking data, or its booking lacks a revision
(`revLookup = none` collapses exactly these three checks), the whole batch
aborts with a `ServiceManagerError` and zero network calls are issued; only
when every id carries a revision is the single batched request sent, whose
entries are the `(id, rev)` pairs in request order. -/
theorem c5_cancel_validates_before_network (current : Dict Service)
    (service_ids : List String) (resp : Except String CancelResponse) :
    ((∃ sid ∈ service_ids, revLookup current sid = none) →
      (cancel_services true current service_ids resp).networkCalls = 0
      ∧ (cancel_services true current service_ids resp).payload = none
      ∧ exceptOk (cancel_services true current service_ids resp).result = false)
    ∧ ((∀ sid ∈ service_ids, (revLookup current sid).isSome = true) →
      (cancel_services true current service_ids resp).networkCalls = 1
      ∧ (cancel_services true current service_ids resp).payload
          = some (service_ids.map fun sid => (sid, (revLookup current sid).getD ""))) := by
  constructor
  · intro h
    obtain ⟨m, hm⟩ := cancel_build_entries_error current service_ids h
    simp [cancel_services, hm, exceptOk]
  · intro h
    rw [cancel_services]
    simp only [if_neg (by simp : ¬ (true = false))]
    rw [cancel_build_entries_ok current service_ids h]
    cases resp with
    | error e => exact ⟨rfl, rfl⟩
    | ok r =>
        simp only []
        by_cases hk : r.header_ok = false
        · rw [if_pos hk]; exact ⟨rfl, rfl⟩
        · rw [if_neg hk]; exact ⟨rfl, rfl⟩

/-- Witness for C5: with a canonical map holding only `s1`, cancelling
`[s1, s2]` aborts with zero network calls, while cancelling `[s1]` issues
the single batched request with the `(id, rev)` payload. -/
theorem c5_cancel_validates_before_network_witness :
    ((cancel_services true c5_current ["s1", "s2"] (.ok {})).networkCalls = 0
      ∧ (cancel_services true c5_current ["s1", "s2"] (.ok {})).payload = none
      ∧ exceptOk (cancel_services true c5_current ["s1", "s2"] (.ok {})).result = false)
    ∧ ((cancel_services true c5_current ["s1"] (.error "down")).networkCalls = 1
      ∧ (cancel_services true c5_current ["s1"] (.error "down")).payload
          = some (["s1"].map fun sid => (sid, (revLookup c5_current sid).getD "")))
    ∧ (["s1"].map fun sid => (sid, (revLookup c5_current sid).getD ""))
        = [("s1", "r7")] :=
  ⟨(c5_cancel_validates_before_network c5_current ["s1", "s2"] (.ok {})).1 (by decide),
    (c5_cancel_validates_before_network c5_current ["s1"] (.error "down")).2 (by decide),
    by decide⟩

theorem linkIdTruthy_exists (o : Option String) (h : linkIdTruthy o = true) :
    ∃ s, o = some s ∧ ¬ s = "" := by
  cases o with
  | none => simp [linkIdTruthy] at h
  | some s =>
      refine ⟨s, rfl, ?_⟩
      simpa [linkIdTruthy] using h

theorem create_counts_spec (details : Dict BookDetail) :
    ∀ (links : List EntryLink) (acc : Nat × List (String × String)),
      (∀ link ∈ links, linkIdTruthy link.id = true) →
      ((links.foldl (create_entry_step details) acc).1
          = acc.1 + (links.filter fun link =>
              (link.error == none)
                && decide (detailStatus details (link.id.getD "") = 0)).length)
      ∧ ((links.foldl (create_entry_step details) acc).1
            + (links.foldl (create_entry_step details) acc).2.length
          = acc.1 + acc.2.length + links.length) := by
  intro links
  induction links with
  | nil => intro acc _; simp
  | cons link rest ih =>
      intro acc h
      obtain ⟨eid, hid, hne⟩ := linkIdTruthy_exists link.id
        (h link (List.mem_cons_self _ _))
      have htail := fun l hl => h l (List.mem_cons_of_mem _ hl)
      simp only [List.foldl_cons, List.filter_cons]
      by_cases herr : link.error = none
      · by_cases hst : detailStatus details eid = 0
        · have hstep : create_entry_step details acc link = (acc.1 + 1, acc.2) := by
            simp [create_entry_step, herr, hid, hne, hst, linkIdTruthy]
          rw [hstep]
          have hrec := ih (acc.1 + 1, acc.2) htail
          refine ⟨?_, ?_⟩
          · rw [hrec.1]
            simp [herr, hid, hst]
            omega
          · rw [hrec.2]
            simp
            omega
        · have hstep : create_entry_step details acc link
              = (acc.1, acc.2 ++ [(eid, "Status " ++ toString (detailStatus details eid))]) := by
            simp [create_entry_step, herr, hid, hne, hst, linkIdTruthy]
          rw [hstep]
          have hrec := ih
            (acc.1, acc.2 ++ [(eid, "Status " ++ toString (detailStatus details eid))]) htail
          refine ⟨?_, ?_⟩
          · rw [hrec.1]
            simp [herr, hid, hst]
          · rw [hrec.2]
            simp
            omega
      · have hstep : create_entry_step details acc link
            = (acc.1, acc.2 ++ [(eid, link.error.getD "Unknown error")]) := by
          simp [create_entry_step, herr, hid, hne, linkIdTruthy]
        rw [hstep]
        have hrec := ih (acc.1, acc.2 ++ [(eid, link.error.getD "Unknown error")]) htail
        refine ⟨?_, ?_⟩
        · rw [hrec.1]
          simp [herr, hid]
        · rw [hrec.2]
          simp
          omega

/-- C6: for a create whose response reports per-entry outcomes (every link
carries an id), `create_services` returns without raising a result whose
success count equals the number of links with a null `error` and detail
status 0, whose failed list holds one `(id, reason)` pair per remaining
link, and whose total equals the number of submitted entries. -/
theorem c6_create_partial_failure_accounting (services : Dict Service)
    (selected_ids : List String) (r : CreateResponse)
    (h : ∀ link ∈ r.entriesLink, linkIdTruthy link.id = true) :
    create_services true services selected_ids (.ok r)
      = .ok ⟨(selected_ids.filterMap fun sid => dget services sid).length,
             (create_counts r.details r.entriesLink).1,
             (create_counts r.details r.entriesLink).2⟩
    ∧ (create_counts r.details r.entriesLink).1
        = (r.entriesLink.filter fun link =>
            (link.error == none)
              && decide (detailStatus r.details (link.id.getD "") = 0)).length
    ∧ (create_counts r.details r.entriesLink).1
        + (create_counts r.details r.entriesLink).2.length
      = r.entriesLink.length := by
  have hs := create_counts_spec r.details r.entriesLink (0, []) h
  exact ⟨rfl, by simpa using hs.1, by simpa using hs.2⟩

/-- Witness for C6 at the spec's instance: 3 submitted entries, the remote
reporting success for entries 1 and 3 and a failing detail status for entry
2, yields success count 2, failed list `[(id2, "Status 1")]` and total 3. -/
theorem c6_create_partial_failure_accounting_witness :
    create_services true c6_services ["id1", "id2", "id3"] (.ok c6_resp)
      = .ok { total := 3, success_count := 2, failed_services := [("id2", "Status 1")] }
    ∧ (create_counts c6_resp.details c6_resp.entriesLink).1
        = (c6_resp.entriesLink.filter fun link =>
            (link.error == none)
              && decide (detailStatus c6_resp.details (link.id.getD "") = 0)).length :=
  ⟨by decide,
    (c6_create_partial_failure_accounting c6_services ["id1", "id2", "id3"] c6_resp
      (by decide)).2.1⟩

theorem isSubstr_nil (l : List Char) : isSubstr [] l = true := by
  cases l <;> rfl

/-- C4: the text-filter query language.  For every field text and filter
string: an empty (or whitespace-only) filter accepts every text; a filter
containing the word `OR` (word-bounded) accepts iff ANY of its OR-separated
alternatives — the split pieces with non-empty strip — is a
case-insensitive substring of the text, and this branch wins even when
`AND` also appears; a filter containing `AND` but not `OR` accepts iff ALL
such clauses are substrings; a filter containing neither word accepts iff
the whole stripped string is a case-insensitive substring. -/
theorem c4_text_filter_query_language (text filter_str : String) :
    (pyStrip filter_str.data = [] → field_accepts text filter_str = true)
    ∧ (searchOR (pyStrip filter_str.data) = true →
        (field_accepts text filter_str = true ↔
          ∃ tok ∈ splitOR (pyStrip filter_str.data),
            pyStrip tok ≠ [] ∧
              isSubstr (pyLower (pyStrip tok)) (pyLower text.data) = true))
    ∧ (searchOR (pyStrip filter_str.data) = false →
        searchAND (pyStrip filter_str.data) = true →
        (field_accepts text filter_str = true ↔
          ∀ tok ∈ splitAND (pyStrip filter_str.data),
            pyStrip tok ≠ [] →
              isSubstr (pyLower (pyStrip tok)) (pyLower text.data) = true))
    ∧ (searchOR (pyStrip filter_str.data) = false →
        searchAND (pyStrip filter_str.data) = false →
        (field_accepts text filter_str = true ↔
          isSubstr (pyLower (pyStrip filter_str.data)) (pyLower text.data) = true)) := by
  refine ⟨?_, ?_, ?_, ?_⟩
  · intro h
    simp [field_accepts, evaluate_filter, h]
  · intro hor
    have hne : (pyStrip filter_str.data).isEmpty = false := by
      cases hfs : pyStrip filter_str.data with
      | nil => rw [hfs] at hor; exact absurd hor (by decide)
      | cons a l => rfl
    simp only [field_accepts, evaluate_filter, hne, hor, Bool.false_eq_true,
      if_false, if_true]
    rw [List.any_eq_true]
    constructor
    · rintro ⟨tok, htok, hmatch⟩
      rw [List.mem_filter] at htok
      refine ⟨tok, htok.1, ?_, hmatch⟩
      have hb := htok.2
      intro hc
      simp [hc] at hb
    · rintro ⟨tok, htok, hne2, hmatch⟩
      refine ⟨tok, List.mem_filter.mpr ⟨htok, ?_⟩, hmatch⟩
      cases hfs : pyStrip tok with
      | nil => exact absurd hfs hne2
      | cons a l => rfl
  · intro hor hand
    have hne : (pyStrip filter_str.data).isEmpty = false := by
      cases hfs : pyStrip filter_str.data with
      | nil => rw [hfs] at hand; exact absurd hand (by decide)
      | cons a l => rfl
    simp only [field_accepts, evaluate_filter, hne, hor, hand, Bool.false_eq_true,
      if_false, if_true]
    rw [List.all_eq_true]
    constructor
    · intro hall tok htok hne2
      exact hall tok (List.mem_filter.mpr ⟨htok, by
        cases hfs : pyStrip tok with
        | nil => exact absurd hfs hne2
        | cons a l => rfl⟩)
    · intro hall tok htok
      rw [List.mem_filter] at htok
      refine hall tok htok.1 ?_
      have hb := htok.2
      intro hc
      simp [hc] at hb
  · intro hor hand
    by_cases hfs : pyStrip filter_str.data = []
    · constructor
      · intro _
        rw [hfs]
        exact isSubstr_nil _
      · intro _
        simp [field_accepts, evaluate_filter, hfs]
    · have hne : (pyStrip filter_str.data).isEmpty = false := by
        cases hh : pyStrip filter_str.data with
        | nil => exact absurd hh hfs
        | cons a l => rfl
      simp [field_accepts, evaluate_filter, hne, hor, hand]

/-- Witness for C4 at the spec's instances: `"A OR B"` accepts field text
`"Axx"` through its first alternative; `"A AND B"` rejects it; the empty
query accepts it. -/
theorem c4_text_filter_query_language_witness :
    field_accepts "Axx" "A OR B" = true
    ∧ field_accepts "Axx" "A AND B" = false
    ∧ field_accepts "Axx" "" = true :=
  ⟨((c4_text_filter_query_language "Axx" "A OR B").2.1 (by decide)).mpr
      ⟨['A', ' '], by decide, by decide, by decide⟩,
    by decide,
    (c4_text_filter_query_language "Axx" "").1 (by decide)⟩

theorem dget_merged0 (normal_services group_services : Dict Service)
    (hn : (dkeys normal_services).Nodup) (hg : (dkeys group_services).Nodup)
    (k : String) :
    dget (dupdate (dupdate [] normal_services) group_services) k
      = match dget group_services k with
        | some v => some v
        | none => dget normal_services k := by
  rw [dget_dupdate, dgetLast_eq_dget_of_nodup group_services k hg]
  cases dget group_services k with
  | some v => rfl
  | none =>
      simp only []
      rw [dget_dupdate, dgetLast_eq_dget_of_nodup normal_services k hn]
      cases dget normal_services k <;> rfl

theorem dget_stamped (normal_services group_services : Dict Service)
    (child_to_group : Dict String) (l : Dict Service) (k : String) :
    dget (l.map fun p =>
        (p.1, stampGroupParent normal_services group_services child_to_group p.1 p.2)) k
      = (dget l k).map
          (stampGroupParent normal_services group_services child_to_group k) := by
  induction l with
  | nil => simp [dget]
  | cons p rest ih =>
      simp only [List.map_cons, dget]
      by_cases hp : k = p.1 <;> simp [hp, ih]

theorem dget_mergedOf (normal_services group_services : Dict Service)
    (child_to_group : Dict String)
    (hn : (dkeys normal_services).Nodup) (hg : (dkeys group_services).Nodup)
    (k : String) :
    dget (mergedOf normal_services group_services child_to_group) k
      = (match dget group_services k with
          | some v => some v
          | none => dget normal_services k).map
          (stampGroupParent normal_services group_services child_to_group k) := by
  unfold mergedOf
  rw [dget_stamped, dget_merged0 normal_services group_services hn hg k]

/-- C2: after a successful sync, the canonical map is the normal-services
map overlaid (insert/replace) by every group-service entry keyed by its own
id, with the group-parent stamping applied to the surviving normal entries:
a key held by `group_services` maps to exactly the group entry; a key held
only by `normal_services` maps to the normal entry, stamped with
`groupParent` iff the key is in the child-to-group map; and every
endpoint-kind (non-"group"-typed) service of the merged map whose id is a
key of the child-to-group map carries `groupParent` equal to the mapped
group id. -/
theorem c2_merged_overlay_and_group_parent (st : ManagerState)
    (normal_services group_services : Dict Service) (profiles_resp : ProfilesResp)
    (endpoint_map : Dict String) (child_to_group : Dict String)
    (hn : (dkeys normal_services).Nodup) (hg : (dkeys group_services).Nodup)
    (hgroup : ∀ p ∈ group_services, (Prod.snd p : Service).type = "group") :
    (fetch_services_data st true (.ok normal_services) (.ok profiles_resp)
        (.ok endpoint_map) (.ok (group_services, child_to_group))).2
      = .ok ⟨mergedOf normal_services group_services child_to_group,
             usedProfileIdsOf (mergedOf normal_services group_services child_to_group),
             profileMappingOf profiles_resp, endpoint_map, child_to_group⟩
    ∧ (∀ k v, dget group_services k = some v →
        dget (mergedOf normal_services group_services child_to_group) k = some v)
    ∧ (∀ k v, dget group_services k = none → dget normal_services k = some v →
        dget child_to_group k = none →
        dget (mergedOf normal_services group_services child_to_group) k = some v)
    ∧ (∀ k v g, dget group_services k = none → dget normal_services k = some v →
        dget child_to_group k = some g →
        dget (mergedOf normal_services group_services child_to_group) k
          = some { v with groupParent := some g })
    ∧ (∀ k, dget group_services k = none → dget normal_services k = none →
        dget (mergedOf normal_services group_services child_to_group) k = none)
    ∧ (∀ k v, dget (mergedOf normal_services group_services child_to_group) k = some v →
        v.type ≠ "group" → ∀ g, dget child_to_group k = some g →
        v.groupParent = some g) := by
  have hget := dget_mergedOf normal_services group_services child_to_group hn hg
  refine ⟨rfl, ?_, ?_, ?_, ?_, ?_⟩
  · intro k v hk
    rw [hget k, hk]
    simp [stampGroupParent, hk]
  · intro k v hgk hnk hck
    rw [hget k, hgk, hnk]
    simp [stampGroupParent, hgk, hnk, hck]
  · intro k v g hgk hnk hck
    rw [hget k, hgk, hnk]
    simp [stampGroupParent, hgk, hnk, hck]
  · intro k hgk hnk
    rw [hget k, hgk, hnk]
    rfl
  · intro k v hk htype g hck
    rw [hget k] at hk
    cases hgk : dget group_services k with
    | some w =>
        rw [hgk] at hk
        simp only [Option.map] at hk
        have hv := Option.some.inj hk
        have hstamp : stampGroupParent normal_services group_services child_to_group k w
            = w := by
          simp [stampGroupParent, hgk]
        rw [hstamp] at hv
        have hw : w.type = "group" := hgroup (k, w) (dget_mem _ _ _ hgk)
        rw [hv] at hw
        exact absurd hw htype
    | none =>
        rw [hgk] at hk
        cases hnk : dget normal_services k with
        | none => rw [hnk] at hk; exact Option.noConfusion hk
        | some u =>
            rw [hnk] at hk
            simp only [Option.map] at hk
            have hv := Option.some.inj hk
            have hstamp : stampGroupParent normal_services group_services child_to_group k u
                = { u with groupParent := some g } := by
              simp [stampGroupParent, hgk, hnk, hck]
            rw [hstamp] at hv
            rw [← hv]

/-- Witness for C2 on a concrete well-formed fetch: one normal service
`n1`, one group service `g1`, and the child map sending `n1` to `g1`; the
merged map holds the group entry under `g1` and the stamped normal entry
under `n1`. -/
theorem c2_merged_overlay_and_group_parent_witness :
    (fetch_services_data c1_state0 true (.ok c2w_normal) (.ok c2w_profiles)
        (.ok []) (.ok (c2w_groups, c2w_c2g))).2
      = .ok ⟨mergedOf c2w_normal c2w_groups c2w_c2g,
             usedProfileIdsOf (mergedOf c2w_normal c2w_groups c2w_c2g),
             profileMappingOf c2w_profiles, [], c2w_c2g⟩
    ∧ dget (mergedOf c2w_normal c2w_groups c2w_c2g) "g1" = some sampleGroupService
    ∧ dget (mergedOf c2w_normal c2w_groups c2w_c2g) "n1"
        = some { sampleService "p1" "r1" with groupParent := some "g1" } :=
  ⟨(c2_merged_overlay_and_group_parent c1_state0 c2w_normal c2w_groups c2w_profiles
      [] c2w_c2g (by decide) (by decide) (by decide)).1,
    (c2_merged_overlay_and_group_parent c1_state0 c2w_normal c2w_groups c2w_profiles
      [] c2w_c2g (by decide) (by decide) (by decide)).2.1 "g1" sampleGroupService
      (by decide),
    (c2_merged_overlay_and_group_parent c1_state0 c2w_normal c2w_groups c2w_profiles
      [] c2w_c2g (by decide) (by decide) (by decide)).2.2.2.1 "n1"
      (sampleService "p1" "r1") "g1" (by decide) (by decide) (by decide)⟩

theorem usedProfileStep_mem (acc : List String) (q : String × Service) (pid : String) :
    pid ∈ usedProfileStep acc q
      ↔ pid ∈ acc ∨ (pid = profileOf q.2 ∧ profileOf q.2 ≠ "") := by
  unfold usedProfileStep
  by_cases h1 : profileOf q.2 = ""
  · simp [h1]
  · by_cases h2 : profileOf q.2 ∈ acc
    · have hc : acc.contains (profileOf q.2) = true := List.elem_iff.mpr h2
      rw [if_neg (by simp [hc]; exact fun _ => h2)]
      constructor
      · exact fun h => Or.inl h
      · rintro (h | ⟨rfl, _⟩)
        · exact h
        · exact h2
    · have hc : acc.contains (profileOf q.2) = false := by
        rw [← Bool.not_eq_true]
        exact fun hcc => h2 (List.elem_iff.mp hcc)
      rw [if_pos (by simp [hc, h1]; exact h2)]
      rw [List.mem_append, List.mem_singleton]
      constructor
      · rintro (h | rfl)
        · exact Or.inl h
        · exact Or.inr ⟨rfl, h1⟩
      · rintro (h | ⟨rfl, _⟩)
        · exact Or.inl h
        · exact Or.inr rfl

theorem usedProfile_foldl_mem :
    ∀ (l : Dict Service) (acc : List String) (pid : String),
      pid ∈ l.foldl usedProfileStep acc
        ↔ pid ∈ acc ∨ (pid ≠ "" ∧ ∃ p ∈ l, profileOf (Prod.snd p) = pid) := by
  intro l
  induction l with
  | nil => intro acc pid; simp
  | cons q rest ih =>
      intro acc pid
      rw [List.foldl_cons, ih (usedProfileStep acc q) pid, usedProfileStep_mem]
      constructor
      · rintro ((h | ⟨rfl, hne⟩) | ⟨hne, p, hp, hP⟩)
        · exact Or.inl h
        · exact Or.inr ⟨hne, q, List.mem_cons_self _ _, rfl⟩
        · exact Or.inr ⟨hne, p, List.mem_cons_of_mem _ hp, hP⟩
      · rintro (h | ⟨hne, p, hp, hP⟩)
        · exact Or.inl (Or.inl h)
        · rcases List.mem_cons.mp hp with rfl | hp2
          · exact Or.inl (Or.inr ⟨hP.symm, by rw [hP]; exact hne⟩)
          · exact Or.inr ⟨hne, p, hp2, hP⟩

/-- C7: after every successful sync, the returned `used_profile_ids` is
exactly the set of distinct non-empty profile ids over the services of the
merged map: a profile id is in the set iff it is non-empty and some merged
service references it. -/
theorem c7_used_profile_ids_exact (st : ManagerState)
    (normal_services group_services : Dict Service) (profiles_resp : ProfilesResp)
    (endpoint_map : Dict String) (child_to_group : Dict String) :
    (fetch_services_data st true (.ok normal_services) (.ok profiles_resp)
        (.ok endpoint_map) (.ok (group_services, child_to_group))).2
      = .ok ⟨mergedOf normal_services group_services child_to_group,
             usedProfileIdsOf (mergedOf normal_services group_services child_to_group),
             profileMappingOf profiles_resp, endpoint_map, child_to_group⟩
    ∧ ∀ (pid : String),
        pid ∈ usedProfileIdsOf (mergedOf normal_services group_services child_to_group)
          ↔ pid ≠ ""
            ∧ ∃ p ∈ mergedOf normal_services group_services child_to_group,
                profileOf (Prod.snd p) = pid := by
  refine ⟨rfl, ?_⟩
  intro pid
  unfold usedProfileIdsOf
  rw [usedProfile_foldl_mem]
  simp

end VIPrestore
